import Mathlib

/-!
Shallow embedding of scripts/apply_license.py, a license-header check/apply
tool.  Python strings are modelled as Lean String; Python str.startswith and
str.endswith are modelled as code-point prefix/suffix tests on the character
data, which is exactly the Python semantics (Python strings are sequences of
code points).  A file on disk is modelled as a SrcFile record: its
forward-slash path relative to the project root, its content (none when
read_text would raise IOError or UnicodeDecodeError), and a writable flag
(false when write_text would raise IOError).  A scanned directory is either
none (does not exist on disk) or some list of the files rglob would
enumerate; since every file matches at most one of the two target
extensions and files are processed independently, the per-extension rglob
passes of the source are merged into one pass guarded by the extension
test.  Counters and the final sys.exit code are threaded explicitly.
-/

/-- Embedding of Python str.startswith: code-point prefix test. -/
def startswith (s pre : String) : Bool :=
  pre.data.isPrefixOf s.data

/-- Embedding of Python str.endswith: code-point suffix test. -/
def endswith (s suf : String) : Bool :=
  suf.data.isSuffixOf s.data

/-- COPYRIGHT_YEAR from the configuration block. -/
def COPYRIGHT_YEAR : String := "2025"

/-- COPYRIGHT_OWNER from the configuration block. -/
def COPYRIGHT_OWNER : String := "Karesis"

/-- DIRS_TO_SCAN from the configuration block. -/
def DIRS_TO_SCAN : List String := ["src", "include", "tests"]

/-- TARGET_EXTS from the configuration block. -/
def TARGET_EXTS : List String := [".c", ".h"]

/-- THIRD_PARTY_PATHS from the configuration block (a Python set; modelled
as a list, and is_excluded below is order-independent). -/
def THIRD_PARTY_PATHS : List String :=
  ["include/utils/xxhash.h", "src/utils/xxhash.c"]

/-- BOILERPLATE: the f-string template with year and owner substituted. -/
def BOILERPLATE : String :=
  "/*\n * Copyright " ++ COPYRIGHT_YEAR ++ " " ++ COPYRIGHT_OWNER ++ "\n *\n"
  ++ " * Licensed under the Apache License, Version 2.0 (the \"License\");\n"
  ++ " * you may not use this file except in compliance with the License.\n"
  ++ " * You may obtain a copy of the License at\n"
  ++ " *\n"
  ++ " * http://www.apache.org/licenses/LICENSE-2.0\n"
  ++ " *\n"
  ++ " * Unless required by applicable law or agreed to in writing, software\n"
  ++ " * distributed under the License is distributed on an \"AS IS\" BASIS,\n"
  ++ " * WITHOUT WARRANTIES OR CONDITIONS OF ANY KIND, either express or implied.\n"
  ++ " * See the License for the specific language governing permissions and\n"
  ++ " * limitations under the License.\n"
  ++ " */\n"

/-- BOILERPLATE_WITH_SPACING = BOILERPLATE + two newline characters. -/
def BOILERPLATE_WITH_SPACING : String := BOILERPLATE ++ "\n\n"

/-- A file as the tool sees it: its path relative to the project root in
forward-slash form, its text content (none when reading raises), and
whether write_text would succeed. -/
structure SrcFile where
  relPath : String
  content : Option String
  writable : Bool
deriving DecidableEq

/-- The three run-scoped counters of main. -/
structure Counters where
  missing_files : Nat
  total_processed : Nat
  total_skipped : Nat
deriving DecidableEq

/-- Embedding of process_file: returns the missing flag (the Python return
value) and the file state after the call (content rewritten only in apply
mode on a readable, writable, non-compliant file). -/
def process_file (f : SrcFile) (check_mode : Bool) : Bool × SrcFile :=
  match f.content with
  | none => (false, f)
  | some content =>
    if startswith content BOILERPLATE then
      (false, f)
    else if check_mode then
      (true, f)
    else if f.writable then
      (true, { f with content := some (BOILERPLATE_WITH_SPACING ++ content) })
    else
      (true, f)

/-- Embedding of is_excluded: true when the relative path starts with some
entry of THIRD_PARTY_PATHS. -/
def is_excluded (relative_path_str : String) : Bool :=
  THIRD_PARTY_PATHS.any (fun p => startswith relative_path_str p)

/-- True when the path ends in one of TARGET_EXTS, i.e. rglob enumerates
the file. -/
def matchesTargetExt (path : String) : Bool :=
  TARGET_EXTS.any (fun ext => endswith path ext)

/-- The body of the inner loop of main for one enumerated file: skip and
count excluded files, otherwise count as processed, run process_file, and
add its missing flag to the missing tally. -/
def scanStep (check_mode : Bool) (c : Counters) (f : SrcFile) :
    Counters × SrcFile :=
  if is_excluded f.relPath then
    ({ c with total_skipped := c.total_skipped + 1 }, f)
  else
    let r := process_file f check_mode
    ({ c with
        total_processed := c.total_processed + 1,
        missing_files := c.missing_files + (if r.1 then 1 else 0) },
     r.2)

/-- One directory scan of main: every file with a target extension goes
through scanStep; other files are untouched. -/
def scanFiles (check_mode : Bool) : Counters → List SrcFile →
    Counters × List SrcFile
  | c, [] => (c, [])
  | c, f :: fs =>
    if matchesTargetExt f.relPath then
      let r := scanStep check_mode c f
      let rest := scanFiles check_mode r.1 fs
      (rest.1, r.2 :: rest.2)
    else
      let rest := scanFiles check_mode c fs
      (rest.1, f :: rest.2)

/-- The directory loop of main: a none directory does not exist, is
warned about and skipped; a some directory is scanned. -/
def scanDirs (check_mode : Bool) : Counters → List (Option (List SrcFile)) →
    Counters × List (Option (List SrcFile))
  | c, [] => (c, [])
  | c, none :: ds =>
    let rest := scanDirs check_mode c ds
    (rest.1, none :: rest.2)
  | c, some files :: ds =>
    let r := scanFiles check_mode c files
    let rest := scanDirs check_mode r.1 ds
    (rest.1, some r.2 :: rest.2)

/-- Result of one invocation: final counters, the file tree after the run,
and the argument of sys.exit. -/
structure RunResult where
  counters : Counters
  dirs : List (Option (List SrcFile))
  exit_code : Nat
deriving DecidableEq

/-- Embedding of main: scan all directories starting from zero counters,
then exit 1 exactly when check mode found missing files, else exit 0. -/
def main_run (check_mode : Bool) (dirs : List (Option (List SrcFile))) :
    RunResult :=
  let r := scanDirs check_mode
    { missing_files := 0, total_processed := 0, total_skipped := 0 } dirs
  { counters := r.1
    dirs := r.2
    exit_code :=
      if check_mode then (if r.1.missing_files > 0 then 1 else 0) else 0 }

/-- The content transformation a single enumerated file undergoes in one
run; counters do not influence it. -/
def transform (check_mode : Bool) (f : SrcFile) : SrcFile :=
  if matchesTargetExt f.relPath then
    if is_excluded f.relPath then f
    else (process_file f check_mode).2
  else f

/-- The return value of process_file, which does not depend on the mode or
on writability: true exactly for a readable file not starting with the
boilerplate. -/
def readable_missing (f : SrcFile) : Bool :=
  match f.content with
  | none => false
  | some c => !startswith c BOILERPLATE

/-- True exactly when the run counts this file in the missing tally: a
target-extension, non-excluded, readable file not starting with the
boilerplate. -/
def found_missing (f : SrcFile) : Bool :=
  matchesTargetExt f.relPath && !is_excluded f.relPath && readable_missing f

/-- Missing tally contributed by one directory. -/
def dirMissing : Option (List SrcFile) → Nat
  | none => 0
  | some fs => fs.countP (fun f => found_missing f)

/-- Missing tally contributed by the whole tree. -/
def treeMissing (dirs : List (Option (List SrcFile))) : Nat :=
  (dirs.map dirMissing).sum

/-- Some existing directory of the tree holds a file that the run counts
in the missing tally. -/
def tree_has_missing (dirs : List (Option (List SrcFile))) : Prop :=
  ∃ d ∈ dirs, ∃ fs, d = some fs ∧ ∃ f ∈ fs, found_missing f = true

/-- Sample file: a readable, writable C file with no license header. -/
def fileA : SrcFile :=
  { relPath := "src/a.c", content := some "int x;\n", writable := true }

/-- Sample file: a C file already starting with the exact boilerplate. -/
def fileB : SrcFile :=
  { relPath := "src/b.c", content := some BOILERPLATE, writable := true }

/-- Sample file: the excluded third-party xxHash source file. -/
def fileX : SrcFile :=
  { relPath := "src/utils/xxhash.c", content := some "#define X 1\n",
    writable := true }

/-- Sample file: an unreadable C file. -/
def fileU : SrcFile :=
  { relPath := "src/u.c", content := none, writable := true }

/-- Sample file: a readable but unwritable C file with no header. -/
def fileW : SrcFile :=
  { relPath := "src/w.c", content := some "abc", writable := false }

/-- Sample counters. -/
def cnt0 : Counters :=
  { missing_files := 0, total_processed := 0, total_skipped := 0 }

/-! ### Basic lemmas about the embedded operations -/

/-- Appending anything to a string keeps the string as a starts-with
witness. -/
theorem startswith_append_left (s t : String) : startswith (s ++ t) s = true := by
  simp [startswith, String.data_append]

/-- A string starts with itself. -/
theorem startswith_refl (s : String) : startswith s s = true := by
  simp [startswith]

/-- process_file never changes the path of a file. -/
theorem process_file_relPath (f : SrcFile) (ck : Bool) :
    (process_file f ck).2.relPath = f.relPath := by
  unfold process_file
  cases f.content with
  | none => rfl
  | some c =>
    by_cases h1 : startswith c BOILERPLATE = true <;>
      cases ck <;> by_cases hw : f.writable = true <;> simp [h1, hw]

/-- The missing flag returned by process_file depends only on readability
and the prefix test, never on the mode or on writability. -/
theorem process_file_fst (f : SrcFile) (ck : Bool) :
    (process_file f ck).1 = readable_missing f := by
  unfold process_file readable_missing
  cases f.content with
  | none => rfl
  | some c =>
    by_cases h1 : startswith c BOILERPLATE = true <;>
      cases ck <;> by_cases hw : f.writable = true <;> simp [h1, hw]

/-- In check mode process_file returns the file unchanged. -/
theorem process_file_check_snd (f : SrcFile) : (process_file f true).2 = f := by
  unfold process_file
  cases f.content with
  | none => rfl
  | some c => by_cases h1 : startswith c BOILERPLATE = true <;> simp [h1]

/-- The file component of scanStep. -/
theorem scanStep_snd (ck : Bool) (c : Counters) (f : SrcFile) :
    (scanStep ck c f).2 =
      if is_excluded f.relPath then f else (process_file f ck).2 := by
  unfold scanStep
  by_cases he : is_excluded f.relPath = true <;> simp [he]

/-- The missing tally after scanStep. -/
theorem scanStep_missing (ck : Bool) (c : Counters) (f : SrcFile) :
    (scanStep ck c f).1.missing_files =
      c.missing_files +
        (if is_excluded f.relPath then 0
         else if readable_missing f then 1 else 0) := by
  unfold scanStep
  by_cases he : is_excluded f.relPath = true <;> simp [he, process_file_fst]

/-- The file list produced by one directory scan is the pointwise
transform of the input list; counters never influence file contents. -/
theorem scanFiles_snd (ck : Bool) (c : Counters) (fs : List SrcFile) :
    (scanFiles ck c fs).2 = fs.map (transform ck) := by
  induction fs generalizing c with
  | nil => rfl
  | cons f fs ih =>
    unfold scanFiles
    by_cases hm : matchesTargetExt f.relPath = true
    · simp [hm, ih, transform, scanStep_snd]
    · simp [hm, ih, transform]

/-- The missing tally after one directory scan adds the per-file count. -/
theorem scanFiles_missing (ck : Bool) (c : Counters) (fs : List SrcFile) :
    (scanFiles ck c fs).1.missing_files =
      c.missing_files + fs.countP (fun f => found_missing f) := by
  induction fs generalizing c with
  | nil => simp [scanFiles]
  | cons f fs ih =>
    unfold scanFiles
    by_cases hm : matchesTargetExt f.relPath = true <;>
      by_cases he : is_excluded f.relPath = true <;>
        by_cases hr : readable_missing f = true <;>
          (simp [hm, he, hr, ih, scanStep, process_file_fst,
            List.countP_cons, found_missing]; try omega)

/-- The file tree produced by the directory loop is the pointwise
transform of the input tree. -/
theorem scanDirs_snd (ck : Bool) (c : Counters)
    (ds : List (Option (List SrcFile))) :
    (scanDirs ck c ds).2 =
      ds.map (Option.map (fun fs => fs.map (transform ck))) := by
  induction ds generalizing c with
  | nil => rfl
  | cons d ds ih =>
    cases d with
    | none => simp [scanDirs, ih]
    | some fs => simp [scanDirs, ih, scanFiles_snd]

/-- The missing tally after the directory loop adds the tree count. -/
theorem scanDirs_missing (ck : Bool) (c : Counters)
    (ds : List (Option (List SrcFile))) :
    (scanDirs ck c ds).1.missing_files = c.missing_files + treeMissing ds := by
  induction ds generalizing c with
  | nil => simp [scanDirs, treeMissing]
  | cons d ds ih =>
    cases d with
    | none => simp [scanDirs, ih, treeMissing, dirMissing]
    | some fs =>
      simp [scanDirs, ih, scanFiles_missing, treeMissing, dirMissing]
      omega

/-- The final missing counter of a run is the tree count. -/
theorem main_run_missing (ck : Bool) (dirs : List (Option (List SrcFile))) :
    (main_run ck dirs).counters.missing_files = treeMissing dirs := by
  simp [main_run, scanDirs_missing]

/-- The file tree after a run is the pointwise transform of the tree. -/
theorem main_run_dirs (ck : Bool) (dirs : List (Option (List SrcFile))) :
    (main_run ck dirs).dirs =
      dirs.map (Option.map (fun fs => fs.map (transform ck))) := by
  simp [main_run, scanDirs_snd]

/-- The exit code of a run, in terms of the tree count. -/
theorem main_run_exit (ck : Bool) (dirs : List (Option (List SrcFile))) :
    (main_run ck dirs).exit_code =
      if ck = true then (if 0 < treeMissing dirs then 1 else 0) else 0 := by
  simp [main_run, scanDirs_missing]

/-- In check mode the transform is the identity. -/
theorem transform_check_id (f : SrcFile) : transform true f = f := by
  by_cases hm : matchesTargetExt f.relPath = true <;>
    by_cases he : is_excluded f.relPath = true <;>
      simp [transform, hm, he, process_file_check_snd]

/-- A directory holds a missing file exactly when its tally is positive. -/
theorem dirMissing_pos_iff (d : Option (List SrcFile)) :
    0 < dirMissing d ↔ ∃ fs, d = some fs ∧ ∃ f ∈ fs, found_missing f = true := by
  cases d with
  | none => simp [dirMissing]
  | some fs => simp [dirMissing, List.countP_pos_iff]

/-- The tree tally is positive exactly when some directory holds a file
counted as missing. -/
theorem treeMissing_pos_iff (ds : List (Option (List SrcFile))) :
    0 < treeMissing ds ↔ tree_has_missing ds := by
  induction ds with
  | nil => simp [treeMissing, tree_has_missing]
  | cons d ds ih =>
    unfold treeMissing at ih ⊢
    unfold tree_has_missing at ih ⊢
    simp only [List.map_cons, List.sum_cons]
    rw [show (0 < dirMissing d + (ds.map dirMissing).sum ↔
          0 < dirMissing d ∨ 0 < (ds.map dirMissing).sum) from by omega]
    rw [dirMissing_pos_iff, ih]
    simp [List.mem_cons, or_and_right, exists_or]

/-- The apply-mode transform is idempotent on every single file: a
rewritten file starts with the boilerplate, and every other case leaves
the file untouched. -/
theorem transform_apply_idem (f : SrcFile) :
    transform false (transform false f) = transform false f := by
  by_cases hm : matchesTargetExt f.relPath = true
  · by_cases he : is_excluded f.relPath = true
    · simp [transform, hm, he]
    · cases hc : f.content with
      | none =>
        have h0 : process_file f false = (false, f) := by
          simp [process_file, hc]
        simp [transform, hm, he, h0]
      | some c =>
        by_cases h1 : startswith c BOILERPLATE = true
        · have h0 : (process_file f false).2 = f := by
            simp [process_file, hc, h1]
          simp [transform, hm, he, h0]
        · by_cases hw : f.writable = true
          · have hg : (process_file f false).2 =
                { f with content := some (BOILERPLATE_WITH_SPACING ++ c) } := by
              simp [process_file, hc, h1, hw]
            have hsw : startswith (BOILERPLATE_WITH_SPACING ++ c) BOILERPLATE = true := by
              rw [show BOILERPLATE_WITH_SPACING = BOILERPLATE ++ "\n\n" from rfl,
                String.append_assoc]
              exact startswith_append_left _ _
            have hpg : process_file
                { f with content := some (BOILERPLATE_WITH_SPACING ++ c) } false =
                (false, { f with content := some (BOILERPLATE_WITH_SPACING ++ c) }) := by
              simp [process_file, hsw]
            have h2 : transform false f =
                { f with content := some (BOILERPLATE_WITH_SPACING ++ c) } := by
              simp [transform, hm, he, hg]
            rw [h2]
            simp [transform, hm, he, hpg]
          · have h0 : (process_file f false).2 = f := by
              simp [process_file, hc, h1, hw]
            simp [transform, hm, he, h0]
  · simp [transform, hm]

/-! ### Claims -/

/-- C1: for every run, the process exit status is 1 exactly when the run
is in check mode and at least one scanned, non-excluded file was found
missing the header; in every other case (apply mode regardless of read or
write failures, and check mode with zero missing files) the exit status
is 0. -/
theorem exit_code_contract (ck : Bool) (dirs : List (Option (List SrcFile))) :
    ((main_run ck dirs).exit_code = 1 ↔ (ck = true ∧ tree_has_missing dirs))
    ∧ ((main_run ck dirs).exit_code = 0 ↔ ¬(ck = true ∧ tree_has_missing dirs)) := by
  rw [main_run_exit]
  cases ck with
  | false => simp
  | true =>
    by_cases h : 0 < treeMissing dirs
    · have h2 := (treeMissing_pos_iff dirs).mp h
      simp [h, h2]
    · have h2 : ¬ tree_has_missing dirs := fun hh => h ((treeMissing_pos_iff dirs).mpr hh)
      simp [h, h2]

set_option maxRecDepth 10000 in
/-- C2 counterexample: a scanned, non-excluded, readable target file
missing the header whose write-back fails is NOT rewritten by an
apply-mode run, so the claim as stated (every such readable file is
rewritten) is false. -/
theorem apply_rewrites_unwritable_cex :
    transform false fileW = fileW
    ∧ ¬ (transform false fileW).content
        = some (BOILERPLATE ++ "\n\n" ++ "abc") := by decide

/-- C2 amended: for every scanned, non-excluded, readable target file
whose content does not start with the exact boilerplate, an apply-mode
run whose write-back succeeds rewrites the file to the boilerplate
followed by two blank lines followed by the original content unchanged;
a check-mode run reports the file as missing and leaves its content
unmodified. -/
theorem apply_rewrites_and_check_reports (f : SrcFile) (c : String)
    (hm : matchesTargetExt f.relPath = true)
    (he : is_excluded f.relPath = false)
    (hc : f.content = some c)
    (hp : startswith c BOILERPLATE = false) :
    (f.writable = true →
      transform false f = { f with content := some (BOILERPLATE ++ "\n\n" ++ c) })
    ∧ (process_file f true).1 = true
    ∧ transform true f = f := by
  refine ⟨?_, ?_, ?_⟩
  · intro hw
    have h1 : process_file f false =
        (true, { f with content := some (BOILERPLATE_WITH_SPACING ++ c) }) := by
      simp [process_file, hc, hp, hw]
    simp [transform, hm, he, h1, BOILERPLATE_WITH_SPACING]
  · simp [process_file, hc, hp]
  · exact transform_check_id f

set_option maxRecDepth 10000 in
/-- Witness for C2 at a concrete headerless C file. -/
theorem apply_rewrites_and_check_reports_witness :
    (fileA.writable = true →
      transform false fileA =
        { fileA with content := some (BOILERPLATE ++ "\n\n" ++ "int x;\n") })
    ∧ (process_file fileA true).1 = true
    ∧ transform true fileA = fileA :=
  apply_rewrites_and_check_reports fileA "int x;\n"
    (by decide) (by decide) rfl (by decide)

/-- C3: for every scanned, readable file whose content already starts with
the exact boilerplate (an exact prefix comparison on the content), either
mode leaves the file unchanged and does not count it as missing or
fixed. -/
theorem compliant_file_untouched (f : SrcFile) (c : String) (ck : Bool)
    (cnt : Counters)
    (hc : f.content = some c)
    (hp : startswith c BOILERPLATE = true) :
    transform ck f = f
    ∧ (process_file f ck).1 = false
    ∧ (scanStep ck cnt f).1.missing_files = cnt.missing_files
    ∧ (scanStep ck cnt f).2 = f := by
  have h1 : process_file f ck = (false, f) := by
    simp [process_file, hc, hp]
  have h2 : readable_missing f = false := by
    simp [readable_missing, hc, hp]
  refine ⟨?_, ?_, ?_, ?_⟩
  · by_cases hm : matchesTargetExt f.relPath = true <;>
      by_cases he : is_excluded f.relPath = true <;> simp [transform, hm, he, h1]
  · simp [h1]
  · rw [scanStep_missing]
    by_cases he : is_excluded f.relPath = true <;> simp [he, h2]
  · rw [scanStep_snd]
    by_cases he : is_excluded f.relPath = true <;> simp [he, h1]

set_option maxRecDepth 10000 in
/-- Witness for C3 at a file whose content is exactly the boilerplate. -/
theorem compliant_file_untouched_witness :
    transform true fileB = fileB
    ∧ (process_file fileB true).1 = false
    ∧ (scanStep true cnt0 fileB).1.missing_files = cnt0.missing_files
    ∧ (scanStep true cnt0 fileB).2 = fileB :=
  compliant_file_untouched fileB BOILERPLATE true cnt0 rfl (by decide)

/-- C4: for every enumerated file whose forward-slash relative path starts
with some exclusion entry, the run never reads or modifies the file,
counts it once in the skipped tally and in neither the processed nor the
missing tally, regardless of content and mode. -/
theorem excluded_file_skipped (ck : Bool) (cnt : Counters) (f : SrcFile)
    (hm : matchesTargetExt f.relPath = true)
    (he : is_excluded f.relPath = true) :
    scanStep ck cnt f = ({ cnt with total_skipped := cnt.total_skipped + 1 }, f)
    ∧ transform ck f = f := by
  constructor
  · simp [scanStep, he]
  · simp [transform, hm, he]

/-- Witness for C4 at the excluded xxHash source file. -/
theorem excluded_file_skipped_witness :
    scanStep false cnt0 fileX =
      ({ cnt0 with total_skipped := cnt0.total_skipped + 1 }, fileX)
    ∧ transform false fileX = fileX :=
  excluded_file_skipped false cnt0 fileX (by decide) (by decide)

/-- C5: applying the tool twice in apply mode produces the same final file
contents as applying it once; every file rewritten by the first run starts
with the exact boilerplate, so the second run changes nothing. -/
theorem apply_mode_idempotent (dirs : List (Option (List SrcFile))) :
    (main_run false ((main_run false dirs).dirs)).dirs = (main_run false dirs).dirs := by
  rw [main_run_dirs, main_run_dirs, List.map_map]
  refine List.map_congr_left fun d _ => ?_
  cases d with
  | none => rfl
  | some fs =>
    show some ((fs.map (transform false)).map (transform false))
      = some (fs.map (transform false))
    rw [List.map_map]
    exact congrArg some (List.map_congr_left fun a _ => transform_apply_idem a)

/-- C6 counterexample: a check-mode run over a single unreadable,
non-excluded target file counts it in the processed tally (while not
counting it as missing), contradicting the claim that such a file appears
in no tally. -/
theorem unreadable_counted_processed_cex :
    (main_run true [some [fileU]]).counters.total_processed = 1
    ∧ (main_run true [some [fileU]]).counters.missing_files = 0 := by decide

/-- C6 amended: for every scanned, non-excluded target file that cannot be
read as text, the run logs an error, leaves the file unmodified and does
not count it as missing, but it is counted in the processed tally. -/
theorem unreadable_file_logged_not_missing (ck : Bool) (cnt : Counters)
    (f : SrcFile)
    (he : is_excluded f.relPath = false)
    (hr : f.content = none) :
    scanStep ck cnt f =
      ({ cnt with total_processed := cnt.total_processed + 1 }, f) := by
  have h1 : process_file f ck = (false, f) := by simp [process_file, hr]
  simp [scanStep, he, h1]

/-- Witness for the amended C6 at a concrete unreadable file. -/
theorem unreadable_file_logged_not_missing_witness :
    scanStep true cnt0 fileU =
      ({ cnt0 with total_processed := cnt0.total_processed + 1 }, fileU) :=
  unreadable_file_logged_not_missing true cnt0 fileU (by decide) rfl

/-- C7: for every scanned, non-excluded, readable file missing the header
whose write-back fails in apply mode, the run logs an error, leaves the
file as it was, still counts the file in the missing tally, and continues
with the remaining files. -/
theorem write_failure_still_counted (cnt : Counters) (f : SrcFile)
    (c : String) (rest : List SrcFile)
    (hm : matchesTargetExt f.relPath = true)
    (he : is_excluded f.relPath = false)
    (hc : f.content = some c)
    (hp : startswith c BOILERPLATE = false)
    (hw : f.writable = false) :
    scanStep false cnt f =
      ({ cnt with
          missing_files := cnt.missing_files + 1,
          total_processed := cnt.total_processed + 1 }, f)
    ∧ (scanFiles false cnt (f :: rest)).2 = f :: rest.map (transform false) := by
  have h1 : process_file f false = (true, f) := by
    simp [process_file, hc, hp, hw]
  constructor
  · simp [scanStep, he, h1]
  · rw [scanFiles_snd]
    simp [transform, hm, he, h1]

set_option maxRecDepth 10000 in
/-- Witness for C7 at a concrete unwritable headerless file. -/
theorem write_failure_still_counted_witness :
    scanStep false cnt0 fileW =
      ({ cnt0 with
          missing_files := cnt0.missing_files + 1,
          total_processed := cnt0.total_processed + 1 }, fileW)
    ∧ (scanFiles false cnt0 [fileW]).2 = fileW :: List.map (transform false) [] :=
  write_failure_still_counted cnt0 fileW "abc" []
    (by decide) (by decide) rfl (by decide) rfl

/-- C8: a configured directory that does not exist is warned about and
skipped: it contributes nothing to any tally and the scan continues with
the remaining directories. -/
theorem missing_directory_skipped (ck : Bool) (cnt : Counters)
    (ds : List (Option (List SrcFile))) :
    scanDirs ck cnt (none :: ds) =
      ((scanDirs ck cnt ds).1, none :: (scanDirs ck cnt ds).2) := rfl

/-- C9: a check-mode run never writes to any file: the whole tree after
the run equals the tree before, whether files are compliant, missing,
excluded or unreadable. -/
theorem check_mode_preserves_tree (dirs : List (Option (List SrcFile))) :
    (main_run true dirs).dirs = dirs := by
  rw [main_run_dirs]
  have h : transform true = id := funext transform_check_id
  rw [h]
  simp

/-- C10: the exclusion test is a plain string-prefix test, not a
path-component test: a path is excluded exactly when it starts with some
entry of THIRD_PARTY_PATHS as a string, and hence the path
src/utils/xxhash.cx, which merely extends the entry src/utils/xxhash.c
and is itself no entry, is excluded as well. -/
theorem exclusion_test_plain_string_match :
    (∀ r : String, is_excluded r = true ↔
      ∃ p ∈ THIRD_PARTY_PATHS, startswith r p = true)
    ∧ is_excluded "src/utils/xxhash.cx" = true
    ∧ "src/utils/xxhash.cx" ∉ THIRD_PARTY_PATHS := by
  refine ⟨?_, by decide, by decide⟩
  intro r
  simp [is_excluded, List.any_eq_true]
